import Mathlib

/-!
Verification of the visa-scraper control loops: a shallow embedding of the
challenge detector, the challenge-handling loop, the browser lifecycle
manager, the availability poller, the rate limiter and the IP health check,
with theorems settling the specified behavioural claims.

Pages, external API responses and operator input are modelled as explicit
data; machine time is modelled in integer milliseconds, as in the source.
-/

namespace VisaScraper

/-- Substring test on character lists: `pat` occurs contiguously in the list. -/
def listContainsSeq (pat : List Char) : List Char → Bool
  | [] => pat.isEmpty
  | c :: rest => pat.isPrefixOf (c :: rest) || listContainsSeq pat rest

/-- Models JavaScript `s.includes(pat)`. -/
def strContains (s pat : String) : Bool :=
  listContainsSeq pat.toList s.toList

/-- ASCII lower-casing of one character (the keyword lists compared against
lower-cased text are all ASCII). -/
def charLower (c : Char) : Char :=
  if 65 ≤ c.toNat && c.toNat ≤ 90 then Char.ofNat (c.toNat + 32) else c

/-- Models JavaScript `s.toLowerCase()` on the ASCII range. -/
def strLower (s : String) : String :=
  ⟨s.toList.map charLower⟩

/-- Models JavaScript `s.trim()`: strips leading and trailing whitespace. -/
def strTrim (s : String) : String :=
  ⟨((s.toList.dropWhile Char.isWhitespace).reverse.dropWhile
      Char.isWhitespace).reverse⟩

/-- Target portal URL, from `config.ts`. -/
def tlsURL : String := "https://visas-de.tlscontact.com/visa/gb/gbLON2de/home"

/-! ## Challenge Detector (`captcha.ts`, `detectCaptcha`) -/

/-- Read-only view of the page state consulted by `detectCaptcha`:
which CSS selectors currently match an element, the URL, the title
(empty on failure, matching the `.catch(() => '')`), the raw HTML content
(idem), whether a `meta[http-equiv="refresh"]` element exists, and the
visible body text (idem). -/
structure PageModel where
  selectorsPresent : List String
  url : String
  title : String
  content : String
  metaRefresh : Bool
  bodyText : String
  deriving DecidableEq

/-- Result record of `detectCaptcha` (`CaptchaDetectionResult` in `types.ts`). -/
structure CaptchaDetectionResult where
  hasCaptcha : Bool
  type : String
  deriving DecidableEq

/-- The selector battery of `detectCaptcha`, in source order:
provider families first, then generic markers. -/
def captchaSelectors : List (String × List String) :=
  [ ("recaptcha",
      ["iframe[src*=\"recaptcha\"]", ".g-recaptcha", "#recaptcha",
       "[data-sitekey]", ".recaptcha-checkbox"]),
    ("hcaptcha",
      ["iframe[src*=\"hcaptcha\"]", ".h-captcha", "#hcaptcha",
       "[data-hcaptcha-sitekey]"]),
    ("turnstile",
      ["iframe[src*=\"turnstile\"]", ".cf-turnstile", "#turnstile",
       "[data-cf-turnstile-sitekey]"]),
    ("cloudflare",
      ["#cf-challenge-running", ".cf-browser-verification", "#challenge-form",
       ".challenge-stage", ".cf-wrapper", ".cf-error-overview", "#cf-content",
       ".cf-challenge-container", "[data-ray]", ".challenge-wrapper",
       ".challenge-error-text", "#challenge-error-title"]),
    ("generic",
      ["[class*=\"captcha\"]", "[id*=\"captcha\"]", "[class*=\"challenge\"]",
       "[id*=\"challenge\"]", ".verification", "#verification", ".robot-check",
       ".security-check", ".bot-detection", ".anti-bot"]) ]

/-- First DOM-marker hit: scans the selector families in order and, within a
family, the selectors in order; returns the family name and the selector. -/
def firstSelectorHit (present : List String) :
    List (String × List String) → Option (String × String)
  | [] => none
  | (ty, sels) :: rest =>
    match sels.find? (fun s => present.contains s) with
    | some s => some (ty, s)
    | none => firstSelectorHit present rest

/-- Check category 1: known provider DOM markers. -/
def domMarkerHit (p : PageModel) : Option (String × String) :=
  firstSelectorHit p.selectorsPresent captchaSelectors

/-- Check category 2: Cloudflare URL fragments and interstitial page titles. -/
def cloudflareUrlTitle (p : PageModel) : Bool :=
  strContains p.url "cdn-cgi/challenge-platform" ||
  strContains p.url "__cf_chl_" ||
  strContains p.title "Just a moment" ||
  strContains p.title "Checking your browser" ||
  strContains p.title "DDoS protection" ||
  strContains p.title "Cloudflare"

/-- Keyword list of the full-page-text scan (check category 3). -/
def captchaKeywords : List String :=
  ["captcha", "recaptcha", "hcaptcha", "turnstile",
   "verify you are human", "prove you are human", "human verification",
   "security check", "robot verification", "anti-robot",
   "challenge", "verification required", "please verify",
   "checking your browser", "just a moment", "ddos protection",
   "cloudflare", "ray id", "performance & security",
   "browser verification", "automated requests"]

/-- Check category 3: first bot-challenge keyword contained in the
lower-cased page content. -/
def keywordHit (p : PageModel) : Option String :=
  captchaKeywords.find? (fun k => strContains (strLower p.content) k)

/-- Check category 4: challenge-looking URL path fragments. -/
def urlHeuristic (p : PageModel) : Bool :=
  strContains p.url "challenge" || strContains p.url "verify" ||
  strContains p.url "captcha" || strContains p.url "cf-" ||
  strContains p.url "bot-check" || strContains p.url "security-check"

/-- Check category 6: visible text implausibly short and the URL is not the
known legitimate target page. -/
def minimalContent (p : PageModel) : Bool :=
  decide ((strTrim p.bodyText).length < 100) &&
  !(strContains p.url "tlscontact.com/visa/gb/gbLON2de/home")

/-- `detectCaptcha` from `captcha.ts`: the ordered battery of checks,
short-circuiting on the first match, reporting absent only when every
category failed. -/
def detectCaptcha (p : PageModel) : CaptchaDetectionResult :=
  match domMarkerHit p with
  | some (ty, sel) => ⟨true, ty ++ " (" ++ sel ++ ")"⟩
  | none =>
    if cloudflareUrlTitle p then ⟨true, "cloudflare-challenge"⟩
    else
      match keywordHit p with
      | some kw => ⟨true, "keyword: " ++ kw⟩
      | none =>
        if urlHeuristic p then ⟨true, "url-based"⟩
        else if p.metaRefresh then ⟨true, "meta-refresh"⟩
        else if minimalContent p then ⟨true, "minimal-content"⟩
        else ⟨false, "none"⟩

/-! ## Availability check (`scraper.ts`, `checkAppointmentAvailability`) -/

/-- One `<slot>` element as inspected by the availability check: its raw
`innerHTML` and the number of child elements. -/
structure SlotElem where
  innerHTML : String
  children : Nat
  deriving DecidableEq

/-- A slot counts as populated when its trimmed `innerHTML` is non-empty or
it has child elements. -/
def slotPopulated (s : SlotElem) : Bool :=
  decide ((strTrim s.innerHTML).length > 0) || decide (s.children > 0)

/-- `checkAppointmentAvailability` from `scraper.ts`: true when some slot is
populated; false when slots exist but all are empty; false (with only a
console warning) when no slot elements are found at all. -/
def checkAppointmentAvailability (slots : List SlotElem) : Bool :=
  let hasAvailableSlots := slots.any slotPopulated
  if hasAvailableSlots then true
  else if slots.length > 0 then false
  else false

/-! ## Challenge-handling loop (`captcha.ts`, `handleCaptchaLoop`)

The loop is interactive: each iteration consults the page (detection,
automated solving, checkbox clicking) and the operator (menu choice).  These
external responses are modelled by a `LoopIter` record per iteration; the
iteration index equals the value of `captchaAttempt` on entry, since every
non-breaking iteration increments the counter exactly once. -/

/-- External responses consumed by one detection-positive iteration of
`handleCaptchaLoop`. -/
structure LoopIter where
  /-- `detectCaptcha(page).hasCaptcha` at the top of the iteration. -/
  detected : Bool
  /-- `detectCaptcha(page).type` at the top of the iteration. -/
  ctype : String
  /-- `attemptAutomatedSolving(...).solved` (the function catches its own
  errors and returns a record). -/
  autoSolved : Bool
  /-- the post-automated-solve `detectCaptcha` reports the challenge gone. -/
  postAutoCleared : Bool
  /-- `clickCloudflareCheckbox` (automatic attempt) returns true. -/
  cfCheckboxResolved : Bool
  /-- the operator's menu choice (lower-cased trimmed console line). -/
  choice : String
  /-- `clickCloudflareCheckbox` under the explicit "checkbox" choice. -/
  choiceCheckboxResolved : Bool
  /-- `attemptAutomatedSolving` under the "auto" choice reports solved. -/
  retrySolved : Bool
  /-- the post-retry `detectCaptcha` reports the challenge gone. -/
  retryCleared : Bool
  /-- the post-manual-solve `detectCaptcha` reports the challenge gone. -/
  manualCleared : Bool
  /-- `page.reload` in the "refresh" branch rejects (uncaught in source). -/
  reloadFails : Bool
  /-- `page.reload` in the "cookies" branch rejects (uncaught in source;
  `clearBrowserData` itself catches internally). -/
  cookiesFails : Bool
  deriving DecidableEq

/-- Why the challenge-handling episode ended. -/
inductive LoopExit where
  /-- detection reported no challenge. -/
  | noCaptcha
  /-- automated solving cleared the challenge. -/
  | clearedAuto
  /-- the automatic Cloudflare checkbox click resolved it. -/
  | checkboxResolved
  /-- the operator chose "skip". -/
  | skipped
  /-- the explicit "checkbox" choice resolved it. -/
  | checkboxManual
  /-- the "auto" retry cleared it. -/
  | clearedRetry
  /-- manual solving cleared it. -/
  | clearedManual
  /-- the attempt ceiling was reached; the caller proceeds anyway. -/
  | exhausted
  deriving DecidableEq

deriving instance DecidableEq for Except

/-- Final state of a challenge-handling episode: how it returned (or the
exception, for an uncaught page-operation rejection), the final
`captchaAttempt` counter, and the final `sessionInfo.captchaSolved` counter. -/
structure LoopResult where
  res : Except String LoopExit
  attempts : Nat
  solved : Nat
  deriving DecidableEq

/-- `maxCaptchaAttempts` from `handleCaptchaLoop`. -/
def maxCaptchaAttempts : Nat := 5

/-- How a detection-positive iteration of the loop ends: break out of the
loop, raise an uncaught page error, or fall through to the next iteration. -/
inductive StepOut where
  | exit (e : LoopExit)
  | err
  | next
  deriving DecidableEq

/-- The operator-menu part of one iteration of `handleCaptchaLoop` (`a` is
the already incremented `captchaAttempt`): the named choices, the default
manual-solve path, and the bottom-of-loop ceiling check, which is reached
only on that default path. -/
def menuStep (svc : Bool) (it : LoopIter) (a : Nat) : StepOut :=
  if it.choice == "skip" then .exit .skipped
  else if it.choice == "refresh" then
    (if it.reloadFails then .err else .next)
  else if it.choice == "wait" then .next
  else if it.choice == "cookies" then
    (if it.cookiesFails then .err else .next)
  else if it.choice == "stealth" then .next
  else if it.choice == "human" then .next
  else if it.choice == "checkbox" then
    (if it.choiceCheckboxResolved then .exit .checkboxManual else .next)
  else if it.choice == "auto" && svc then
    (if it.retrySolved && it.retryCleared then .exit .clearedRetry else .next)
  -- default: wait for manual solving, then re-detect
  else if it.manualCleared then .exit .clearedManual
  else if maxCaptchaAttempts ≤ a then .exit .exhausted
  else .next

/-- The post-increment part of one detection-positive iteration of
`handleCaptchaLoop`: automated solving first, then the automatic Cloudflare
checkbox attempt, then the operator menu. -/
def loopStep (svc : Bool) (it : LoopIter) (cfType : Bool) (a : Nat) : StepOut :=
  -- automated solving first, when a service is configured
  if svc && it.autoSolved && it.postAutoCleared then .exit .clearedAuto
  -- Cloudflare checkbox attempt when the detected type mentions cloudflare
  -- (`cfType` is `captchaStatus.type.includes('cloudflare')`, computed below)
  else if cfType && it.cfCheckboxResolved then
    .exit .checkboxResolved
  -- operator menu
  else menuStep svc it a

/-- Body of the `while (captchaAttempt < maxCaptchaAttempts)` loop of
`handleCaptchaLoop`, with `fuel = maxCaptchaAttempts - attempt` so that the
guard failing is the `fuel = 0` case; `svc` records whether a CAPTCHA-solving
service is configured.  `captchaAttempt++` and `sessionInfo.captchaSolved++`
happen right after a positive detection, before any solving is attempted. -/
def captchaLoopGo (svc : Bool) (env : Nat → LoopIter) :
    Nat → Nat → Nat → LoopResult
  | 0, attempt, solved => ⟨.ok .exhausted, attempt, solved⟩
  | fuel + 1, attempt, solved =>
    if (env attempt).detected = false then ⟨.ok .noCaptcha, attempt, solved⟩
    else
      match loopStep svc (env attempt)
          (strContains (env attempt).ctype "cloudflare") (attempt + 1) with
      | .exit e => ⟨.ok e, attempt + 1, solved + 1⟩
      | .err => ⟨.error "page reload failed", attempt + 1, solved + 1⟩
      | .next => captchaLoopGo svc env fuel (attempt + 1) (solved + 1)

/-- `handleCaptchaLoop`: runs the loop from `captchaAttempt = 0` with the
session's current `captchaSolved` counter. -/
def handleCaptchaLoop (svc : Bool) (env : Nat → LoopIter) (solved₀ : Nat) :
    LoopResult :=
  captchaLoopGo svc env maxCaptchaAttempts 0 solved₀

/-! ## Browser lifecycle manager (`browserManager.ts`) -/

/-- Mutable `SessionInfo` record (`types.ts`), restricted to the fields the
lifecycle manager reads and writes. -/
structure SessionInfoM where
  userAgent : String
  proxyUsed : Bool
  captchaSolved : Nat
  errors : Nat
  deriving DecidableEq

/-- What `saveSessionData` reads off the live page: cookie set, the two
storage namespaces, and the capability-probe outcome of `testStorageAccess`. -/
structure PageStateM where
  cookies : List String
  localStorage : List (String × String)
  sessionStorage : List (String × String)
  localStorageAccessible : Bool
  sessionStorageAccessible : Bool
  deriving DecidableEq

/-- A live `BrowserSession`. -/
structure BrowserSessionM where
  page : PageStateM
  sessionInfo : SessionInfoM
  startTime : Int
  memoryUsage : Int
  restartCount : Nat
  deriving DecidableEq

/-- `SessionData`, the persisted JSON session-state blob. -/
structure SessionData where
  cookies : List String
  localStorage : List (String × String)
  sessionStorage : List (String × String)
  userAgent : String
  timestamp : Int
  deriving DecidableEq

/-- Manager state: the current session (nullable) and the session-data file
(`none` models a missing or unreadable file). -/
structure MgrState where
  session : Option BrowserSessionM
  store : Option SessionData
  deriving DecidableEq

/-- `maxSessionDuration`: 45 minutes in ms. -/
def maxSessionDuration : Int := 45 * 60 * 1000

/-- `memoryThreshold` of the primary `BrowserManager` copy (line 44):
1GB in bytes. -/
def memoryThreshold : Int := 1024 * 1024 * 1024

/-- `memoryThreshold` of the duplicated `BrowserManager` copy (line 641):
`1024 * 1024 * 1024 * 5`, although its own comment still reads
"1GB in bytes". -/
def memoryThresholdDup : Int := 1024 * 1024 * 1024 * 5

/-- `shouldRestart`, parametrised by the memory ceiling so both copies of the
class can be evaluated: true with no session; true when the session age
exceeds `maxSessionDuration`; true when the memory estimate exceeds the
ceiling; false otherwise. -/
def shouldRestart (threshold : Int) (session : Option BrowserSessionM)
    (now : Int) : Bool :=
  match session with
  | none => true
  | some s =>
    let sessionAge := now - s.startTime
    let memoryExceeded := threshold < s.memoryUsage
    if maxSessionDuration < sessionAge then true
    else if memoryExceeded then true
    else false

/-- Storage capture step of `saveSessionData`: the page is asked for its
storage only when the capability probe grants access to either namespace,
and within the page each namespace is extracted under its own
error-swallowing guard. -/
def capturedLocalStorage (page : PageStateM) : List (String × String) :=
  if page.localStorageAccessible || page.sessionStorageAccessible then
    (if page.localStorageAccessible then page.localStorage else [])
  else []

/-- Storage capture step of `saveSessionData` for the session namespace. -/
def capturedSessionStorage (page : PageStateM) : List (String × String) :=
  if page.localStorageAccessible || page.sessionStorageAccessible then
    (if page.sessionStorageAccessible then page.sessionStorage else [])
  else []

/-- `saveSessionData`: no-op without a session, otherwise writes cookies,
the (conditionally captured) storage namespaces, the session's user agent and
the current time to the session-data file. -/
def saveSessionData (st : MgrState) (now : Int) : MgrState :=
  match st.session with
  | none => st
  | some sess =>
    let d : SessionData :=
      { cookies := sess.page.cookies
        localStorage := capturedLocalStorage sess.page
        sessionStorage := capturedSessionStorage sess.page
        userAgent := sess.sessionInfo.userAgent
        timestamp := now }
    { st with store := some d }

/-- Freshness window of the persisted session state: 24 hours in ms. -/
def sessionDataMaxAge : Int := 24 * 60 * 60 * 1000

/-- `loadSessionData`: `none` when the file is missing/unreadable or the
stored blob is older than `sessionDataMaxAge`; otherwise the stored blob. -/
def loadSessionData (st : MgrState) (now : Int) : Option SessionData :=
  match st.store with
  | none => none
  | some d => if sessionDataMaxAge < now - d.timestamp then none else some d

/-- `closeSession`: closes the browser (best-effort), sets the session to
null and clears both monitoring timers. -/
def closeSession (st : MgrState) : MgrState :=
  { st with session := none }

/-- Environment for a fresh launch: whether `PROXY_HOST` is configured, the
freshly randomized user agent, the new page's initial state and the launch
time. -/
structure LaunchEnv where
  proxyHostConfigured : Bool
  freshUserAgent : String
  initialPage : PageStateM
  now : Int
  deriving DecidableEq

/-- `launchBrowser(useProxy)`: `useProxy = none` models calling it with
`undefined`, in which case the declared default `true` applies.  Loads the
saved session data, prefers the saved user agent over the fresh one, and
installs a new session whose `restartCount` is carried over from
`this.session` (or 0). -/
def launchBrowser (st : MgrState) (useProxy : Option Bool) (env : LaunchEnv) :
    MgrState × BrowserSessionM :=
  let useP := useProxy.getD true
  let savedSession := loadSessionData st env.now
  let userAgent := (savedSession.map SessionData.userAgent).getD env.freshUserAgent
  let sessionInfo : SessionInfoM :=
    { userAgent := userAgent
      proxyUsed := useP && env.proxyHostConfigured
      captchaSolved := 0
      errors := 0 }
  let session : BrowserSessionM :=
    { page := env.initialPage
      sessionInfo := sessionInfo
      startTime := env.now
      memoryUsage := 0
      restartCount := ((st.session.map BrowserSessionM.restartCount).getD 0) }
  ({ st with session := some session }, session)

/-- `restartBrowser`: saves then closes the current session, relaunches, and
sets the new session's restart counter.  Note that `closeSession` has set
`this.session` to null before `this.session?.sessionInfo.proxyUsed` and the
old restart counter are read, exactly as in the source. -/
def restartBrowser (st : MgrState) (now : Int) (env : LaunchEnv) :
    MgrState × BrowserSessionM :=
  let st₁ :=
    match st.session with
    | some _ => closeSession (saveSessionData st now)
    | none => st
  let launched := launchBrowser st₁ (st₁.session.map (fun s => s.sessionInfo.proxyUsed)) env
  let st₂ := launched.1
  let newSession := launched.2
  let newCount := ((st₂.session.map BrowserSessionM.restartCount).getD 0) + 1
  let finalSession := { newSession with restartCount := newCount }
  ({ st₂ with session := some finalSession }, finalSession)

/-! ## Monitoring loop (`scraper.ts`, `monitorAppointments`) -/

/-- External events of one iteration of the `while (true)` monitoring loop:
whether the page-validity probe (`page.evaluate(() => document.title)`)
succeeds, an error thrown inside the cycle body (month checking, reset,
waiting), and whether the month sweep found appointments. -/
structure CycleEnv where
  pageValid : Bool
  cycleError : Option String
  appointmentsFound : Bool
  deriving DecidableEq

/-- Caller-visible outcome of one monitoring-loop iteration. -/
inductive MonitorStep where
  /-- appointments were found; the loop blocks for the operator and breaks. -/
  | found
  /-- no appointments, or a retryable error: wait, then run the next cycle. -/
  | nextCycle
  /-- the error is rethrown to the caller to trigger a session restart. -/
  | propagate (msg : String)
  deriving DecidableEq

/-- The distinguished error thrown when the page-validity probe fails. -/
def sessionRestartedMsg : String := "Browser session restarted - page invalidated"

/-- The catch clause's test for session-invalidating errors. -/
def isSessionInvalidating (msg : String) : Bool :=
  strContains msg "Browser session restarted" ||
  strContains msg "Protocol error" ||
  strContains msg "Target closed" ||
  strContains msg "Execution context was destroyed"

/-- One iteration of `monitorAppointments`: probe the page (throwing
`sessionRestartedMsg` if invalid), sweep the months, and in the catch clause
rethrow session-invalidating errors while retrying everything else after a
delay. -/
def monitorCycle (env : CycleEnv) : MonitorStep :=
  let tryBody : Except String Bool :=
    if env.pageValid = false then .error sessionRestartedMsg
    else
      match env.cycleError with
      | some msg => .error msg
      | none => .ok env.appointmentsFound
  match tryBody with
  | .ok true => .found
  | .ok false => .nextCycle
  | .error msg =>
    if isSessionInvalidating msg then .propagate msg else .nextCycle

/-! ## Rate limiter (`rateLimiter.ts`) -/

/-- State of the `.last-run-timestamp` file as seen by `checkRateLimit`. -/
inductive RateFileState where
  /-- the file does not exist. -/
  | missing
  /-- the file exists but does not parse as a date. -/
  | invalid
  /-- reading the file threw. -/
  | unreadable
  /-- a valid last-run timestamp, in ms since the epoch. -/
  | valid (t : Int)
  deriving DecidableEq

/-- `RateLimitResult` record. -/
structure RateLimitResult where
  canRun : Bool
  lastRunTime : Option Int
  nextAllowedTime : Option Int
  minutesRemaining : Option Int
  deriving DecidableEq

/-- `RATE_LIMIT_MINUTES`. -/
def rateLimitMinutes : Int := 15

/-- `checkRateLimit`: a missing, invalid or unreadable file allows the run;
a valid timestamp allows it exactly when at least `RATE_LIMIT_MINUTES`
minutes have elapsed, otherwise reports the ceiling of the remaining minutes
and the next allowed time. -/
def checkRateLimit (file : RateFileState) (now : Int) : RateLimitResult :=
  match file with
  | .missing => ⟨true, none, none, none⟩
  | .invalid => ⟨true, none, none, none⟩
  | .unreadable => ⟨true, none, none, none⟩
  | .valid t =>
    let timeDifferenceMs : Int := now - t
    let timeDifferenceMinutes : ℚ := (timeDifferenceMs : ℚ) / (1000 * 60)
    if (rateLimitMinutes : ℚ) ≤ timeDifferenceMinutes then
      ⟨true, some t, none, none⟩
    else
      let minutesRemaining : ℚ := (rateLimitMinutes : ℚ) - timeDifferenceMinutes
      ⟨false, some t, some (t + rateLimitMinutes * 60 * 1000),
        some ⌈minutesRemaining⌉⟩

/-- `updateRateLimit`: unconditionally overwrites the file with the current
time. -/
def updateRateLimit (now : Int) : RateFileState := .valid now

/-- Run-start gate of the clean-run entry point: check the rate limit,
exit (`none`) when it rejects, otherwise immediately update the stored
timestamp and proceed with the new file state. -/
def cleanRunStart (file : RateFileState) (now : Int) : Option RateFileState :=
  if (checkRateLimit file now).canRun then some (updateRateLimit now)
  else none

/-! ## IP health check (`ipHealthCheck.ts`) -/

/-- Risk flags of `IPHealthResult`. -/
structure IPRisks where
  isProxy : Bool
  isVPN : Bool
  isTor : Bool
  isBotnet : Bool
  isSpam : Bool
  fraudScore : Int
  blacklisted : List String
  deriving DecidableEq

/-- Location fields of `IPHealthResult`. -/
structure IPLocation where
  country : String
  city : String
  region : String
  isp : String
  deriving DecidableEq

/-- `IPHealthResult`. -/
structure IPHealthResult where
  ip : String
  location : IPLocation
  risks : IPRisks
  recommendation : String
  details : List String
  deriving DecidableEq

/-- Response of the `ip-api.com` proxy/hosting lookup: whether the fetch
threw, whether `status === 'success'`, and the two boolean signals. -/
structure ProxyApiResp where
  threw : Bool
  ok : Bool
  proxy : Bool
  hosting : Bool
  deriving DecidableEq

/-- Response of the `ip-api.com` reputation lookup. -/
structure ReputationApiResp where
  threw : Bool
  ok : Bool
  mobile : Bool
  asn : String
  deriving DecidableEq

/-- The suspicious-ISP keyword list of `checkProxyDetection`. -/
def suspiciousISPs : List String :=
  ["hosting", "datacenter", "cloud", "server", "virtual", "proxy",
   "vpn", "amazon", "google cloud", "microsoft", "digitalocean",
   "linode", "vultr", "ovh", "hetzner"]

/-- `checkProxyDetection`: copies the API's proxy/hosting booleans into the
risk flags (with warning details), then flags the ISP name against the
suspicious-keyword list, setting the VPN flag on the first hit.  A thrown
fetch only records a failure detail. -/
def checkProxyDetection (resp : ProxyApiResp) (r : IPHealthResult) :
    IPHealthResult :=
  if resp.threw then
    { r with details := r.details ++ ["Proxy detection check failed"] }
  else
    let r₁ :=
      if resp.ok then
        let ra := { r with risks :=
          { r.risks with isProxy := resp.proxy, isVPN := resp.hosting } }
        let rb :=
          if resp.proxy then
            { ra with details :=
                ra.details ++ ["⚠️ IP detected as proxy by ip-api.com"] }
          else ra
        if resp.hosting then
          { rb with details :=
              rb.details ++ ["⚠️ IP detected as hosting/datacenter by ip-api.com"] }
        else rb
      else r
    match suspiciousISPs.find? (fun k => strContains (strLower r₁.location.isp) k) with
    | some k =>
      { r₁ with
        risks := { r₁.risks with isVPN := true }
        details := r₁.details ++
          ["⚠️ ISP contains suspicious keyword: \"" ++ k ++ "\""] }
    | none => r₁

/-- The problematic-ASN list of `checkIPReputation`. -/
def problematicASNs : List String :=
  ["Cloudflare", "Amazon", "Google", "Microsoft",
   "DigitalOcean", "Linode", "Vultr"]

/-- `checkIPReputation`: notes mobile IPs, sets the VPN flag on a
cloud-provider ASN, then (re)computes the fraud score from the current
flags, the ISP name and the country, capped at 100.  A thrown fetch only
records a failure detail and skips the score computation. -/
def checkIPReputation (resp : ReputationApiResp) (r : IPHealthResult) :
    IPHealthResult :=
  if resp.threw then
    { r with details := r.details ++ ["IP reputation check failed"] }
  else
    let r₁ :=
      if resp.ok then
        let ra :=
          if resp.mobile then
            { r with details :=
                r.details ++ ["📱 Mobile IP detected - may have restrictions"] }
          else r
        match problematicASNs.find? (fun p => strContains resp.asn p) with
        | some p =>
          { ra with
            risks := { ra.risks with isVPN := true }
            details := ra.details ++ ["⚠️ ASN indicates cloud provider: " ++ p] }
        | none => ra
      else r
    let fraudScore : Int :=
      (if r₁.risks.isProxy then 30 else 0) +
      (if r₁.risks.isVPN then 25 else 0) +
      (if strContains (strLower r₁.location.isp) "hosting" then 20 else 0) +
      (if r₁.location.country == "Unknown" then 15 else 0)
    { r₁ with risks := { r₁.risks with fraudScore := min fraudScore 100 } }

/-- The acceptable-country list of the geolocation-consistency check. -/
def acceptableCountries : List String := ["GB", "UK", "DE", "Germany"]

/-- `analyzeIPHealth`: the geolocation-consistency adjustment (the target
URL contains `gbLON2de`, so it always runs), followed by the composite
recommendation: UNSAFE when the score reaches 70 or a proxy/VPN flag is set,
else CAUTION when the score reaches 30 or any warning detail is present,
else SAFE. -/
def analyzeIPHealth (r : IPHealthResult) : IPHealthResult :=
  let r₁ :=
    if strContains tlsURL "gbLON2de" then
      let isGeoConsistent := acceptableCountries.any (fun c =>
        strContains r.location.country c || strContains r.location.region c)
      if isGeoConsistent = false then
        { r with
          details := r.details ++
            ["🌍 Geolocation mismatch: IP in " ++ r.location.country ++
             ", applying for Germany visa from UK"]
          risks := { r.risks with fraudScore := r.risks.fraudScore + 20 } }
      else
        { r with details := r.details ++
            ["✅ Geolocation consistent with visa application"] }
    else r
  if 70 ≤ r₁.risks.fraudScore || r₁.risks.isProxy || r₁.risks.isVPN then
    { r₁ with
      recommendation := "UNSAFE"
      details := r₁.details ++
        ["🚨 HIGH RISK: IP likely to be blocked or trigger CAPTCHAs"] }
  else if 30 ≤ r₁.risks.fraudScore ||
      r₁.details.any (fun d => strContains d "⚠️") then
    { r₁ with
      recommendation := "CAUTION"
      details := r₁.details ++
        ["⚠️ MEDIUM RISK: IP may encounter some restrictions"] }
  else
    { r₁ with
      recommendation := "SAFE"
      details := r₁.details ++
        ["✅ LOW RISK: IP appears clean for automation"] }

/-- The freshly initialised `IPHealthResult` of `checkIPHealth`, populated
with the geolocation lookup's fields. -/
def initialResult (ip : String) (loc : IPLocation) : IPHealthResult :=
  { ip := ip
    location := loc
    risks :=
      { isProxy := false, isVPN := false, isTor := false, isBotnet := false
        isSpam := false, fraudScore := 0, blacklisted := [] }
    recommendation := "SAFE"
    details := [] }

/-- `checkIPHealth` (successful-lookup path): geolocation, proxy detection,
reputation, then analysis. -/
def checkIPHealth (ip : String) (loc : IPLocation) (presp : ProxyApiResp)
    (rresp : ReputationApiResp) : IPHealthResult :=
  analyzeIPHealth (checkIPReputation rresp (checkProxyDetection presp (initialResult ip loc)))

/-! ## Concrete fixtures used by witnesses and counterexamples -/

/-- A loop iteration whose detection is always positive and whose operator
always chooses "wait": nothing ever gets resolved. -/
def stuckIter : LoopIter :=
  ⟨true, "x", false, false, false, "wait", false, false, false, false, false, false⟩

/-- A page showing the Cloudflare challenge URL fragment and nothing else. -/
def cfChallengePage : PageModel :=
  ⟨[], "https://x.example/a__cf_chl_b", "", "", false, ""⟩

/-- A page state with one cookie and one entry per storage namespace, both
namespaces accessible. -/
def probePage : PageStateM :=
  ⟨["cookieA"], [("k", "v")], [("s", "w")], true, true⟩

/-- A live session over `probePage` that has been restarted once and runs
without a proxy. -/
def priorSession : BrowserSessionM :=
  ⟨probePage, ⟨"agent-1", false, 3, 2⟩, 0, 0, 1⟩

/-- A relaunch environment with the proxy host configured. -/
def relaunchEnv : LaunchEnv :=
  ⟨true, "agent-2", ⟨[], [], [], true, true⟩, 1000⟩

/-- Successful proxy-lookup response with both signals clean. -/
def cleanProxyResp : ProxyApiResp := ⟨false, true, false, false⟩

/-- Successful proxy-lookup response flagging a proxy. -/
def proxyFlaggedResp : ProxyApiResp := ⟨false, true, true, false⟩

/-- Successful reputation-lookup response with no signals. -/
def cleanReputationResp : ReputationApiResp := ⟨false, true, false, ""⟩

/-- Geolocation of a UK residential address. -/
def cleanLoc : IPLocation := ⟨"GB", "London", "England", "BT Group"⟩

/-- Geolocation whose ISP name matches the hosting pattern and carries no
other risk marker. -/
def hostingLoc : IPLocation := ⟨"GB", "London", "England", "Contabo Hosting"⟩

/-- Geolocation with unknown country (a moderate signal: +15 score and a
geolocation mismatch, +20, with no proxy/VPN flag). -/
def cautionLoc : IPLocation := ⟨"Unknown", "Unknown", "Unknown", "Some ISP"⟩

/-! ## Helper lemmas -/

set_option maxHeartbeats 1000000 in
/-- `menuStep` raises the page error only when the corresponding page
operation was set to fail. -/
theorem menuStep_err (svc : Bool) (it : LoopIter) (a : Nat)
    (h : menuStep svc it a = .err) :
    it.reloadFails = true ∨ it.cookiesFails = true := by
  delta menuStep at h
  split at h
  · exact StepOut.noConfusion h
  split at h
  · split at h
    · exact Or.inl ‹it.reloadFails = true›
    · exact StepOut.noConfusion h
  split at h
  · exact StepOut.noConfusion h
  split at h
  · split at h
    · exact Or.inr ‹it.cookiesFails = true›
    · exact StepOut.noConfusion h
  split at h
  · exact StepOut.noConfusion h
  split at h
  · exact StepOut.noConfusion h
  split at h
  · split at h
    · exact StepOut.noConfusion h
    · exact StepOut.noConfusion h
  split at h
  · split at h
    · exact StepOut.noConfusion h
    · exact StepOut.noConfusion h
  split at h
  · exact StepOut.noConfusion h
  split at h
  · exact StepOut.noConfusion h
  exact StepOut.noConfusion h

/-- `loopStep` raises the page error only when the corresponding page
operation was set to fail. -/
theorem loopStep_err (svc : Bool) (it : LoopIter) (cfType : Bool) (a : Nat)
    (h : loopStep svc it cfType a = .err) :
    it.reloadFails = true ∨ it.cookiesFails = true := by
  delta loopStep at h
  split at h
  · exact StepOut.noConfusion h
  split at h
  · exact StepOut.noConfusion h
  exact menuStep_err svc it a h

/-- The loop counter grows by at most the remaining fuel. -/
theorem captchaLoopGo_attempts_le (svc : Bool) (env : Nat → LoopIter) :
    ∀ fuel attempt solved,
      (captchaLoopGo svc env fuel attempt solved).attempts ≤ attempt + fuel := by
  intro fuel
  induction fuel with
  | zero => intro attempt solved; dsimp only [captchaLoopGo]; omega
  | succ n ih =>
    intro attempt solved
    have h := ih (attempt + 1) (solved + 1)
    simp only [captchaLoopGo]
    split
    · dsimp only; omega
    · split
      all_goals first | (dsimp only; omega) | omega

/-- Each detection-positive iteration increments `captchaAttempt` and
`captchaSolved` in lockstep. -/
theorem captchaLoopGo_solved_eq (svc : Bool) (env : Nat → LoopIter) :
    ∀ fuel attempt solved,
      (captchaLoopGo svc env fuel attempt solved).solved + attempt =
        (captchaLoopGo svc env fuel attempt solved).attempts + solved := by
  intro fuel
  induction fuel with
  | zero => intro attempt solved; dsimp only [captchaLoopGo]; omega
  | succ n ih =>
    intro attempt solved
    have h := ih (attempt + 1) (solved + 1)
    simp only [captchaLoopGo]
    split
    · dsimp only; omega
    · split
      all_goals first | (dsimp only; omega) | omega

/-- When no page operation fails, the loop always returns normally. -/
theorem captchaLoopGo_ok (svc : Bool) (env : Nat → LoopIter)
    (hok : ∀ i, (env i).reloadFails = false ∧ (env i).cookiesFails = false) :
    ∀ fuel attempt solved,
      ∃ e, (captchaLoopGo svc env fuel attempt solved).res = Except.ok e := by
  intro fuel
  induction fuel with
  | zero => intro attempt solved; exact ⟨.exhausted, rfl⟩
  | succ n ih =>
    intro attempt solved
    simp only [captchaLoopGo]
    split
    · exact ⟨.noCaptcha, rfl⟩
    · split
      · exact ⟨_, rfl⟩
      · rename_i hstep
        rcases loopStep_err _ _ _ _ hstep with hf | hf <;>
          simp [(hok attempt).1, (hok attempt).2] at hf
      · exact ih (attempt + 1) (solved + 1)

/-! ## Claim theorems -/

/-- C1: every challenge-handling episode performs at most
5 (`maxCaptchaAttempts`) detection/resolution attempts, and — the uncaught
page-operation rejections of the "refresh"/"cookies" branches being the only
exception source in the loop — reaching the attempt ceiling terminates the
episode by returning normally to the caller, never by raising. -/
theorem handleCaptchaLoop_attempt_ceiling (svc : Bool) (env : Nat → LoopIter)
    (solved₀ : Nat) :
    (handleCaptchaLoop svc env solved₀).attempts ≤ maxCaptchaAttempts ∧
    ((∀ i, (env i).reloadFails = false ∧ (env i).cookiesFails = false) →
      ∃ e, (handleCaptchaLoop svc env solved₀).res = Except.ok e) := by
  constructor
  · simpa using captchaLoopGo_attempts_le svc env maxCaptchaAttempts 0 solved₀
  · intro hok
    exact captchaLoopGo_ok svc env hok maxCaptchaAttempts 0 solved₀

/-- Witness for C1: with a challenge detected on every attempt and an
operator who always answers "wait", the episode still stays within the
ceiling and returns normally (it ends `exhausted`). -/
theorem handleCaptchaLoop_attempt_ceiling_witness :
    (handleCaptchaLoop false (fun _ => stuckIter) 0).attempts ≤
      maxCaptchaAttempts ∧
    ∃ e, (handleCaptchaLoop false (fun _ => stuckIter) 0).res = Except.ok e := by
  have h := handleCaptchaLoop_attempt_ceiling false (fun _ => stuckIter) 0
  exact ⟨h.1, h.2 (fun _ => ⟨rfl, rfl⟩)⟩

/-- C10: `sessionInfo.captchaSolved` is incremented once per
detection-positive iteration (together with `captchaAttempt`, before any
solving is attempted), so after the loop it has grown by exactly the number
of detection-positive attempts — regardless of how many challenges were
actually resolved. -/
theorem handleCaptchaLoop_captchaSolved_counts_detections (svc : Bool)
    (env : Nat → LoopIter) (solved₀ : Nat) :
    (handleCaptchaLoop svc env solved₀).solved =
      solved₀ + (handleCaptchaLoop svc env solved₀).attempts := by
  have h := captchaLoopGo_solved_eq svc env maxCaptchaAttempts 0 solved₀
  unfold handleCaptchaLoop
  omega

/-- C2: `detectCaptcha` reports the challenge absent exactly when all six
check categories failed — DOM markers, Cloudflare URL/title heuristics, the
keyword scan, URL path heuristics, meta-refresh, the minimal-content
heuristic — and otherwise reports present with the first matching
category's kind, in that fixed short-circuit order. -/
theorem detectCaptcha_ordered_battery (p : PageModel) :
    ((detectCaptcha p).hasCaptcha = false ↔
      domMarkerHit p = none ∧ cloudflareUrlTitle p = false ∧
      keywordHit p = none ∧ urlHeuristic p = false ∧
      p.metaRefresh = false ∧ minimalContent p = false) ∧
    (∀ ty sel, domMarkerHit p = some (ty, sel) →
      detectCaptcha p = ⟨true, ty ++ " (" ++ sel ++ ")"⟩) ∧
    (domMarkerHit p = none → cloudflareUrlTitle p = true →
      detectCaptcha p = ⟨true, "cloudflare-challenge"⟩) ∧
    (∀ kw, domMarkerHit p = none → cloudflareUrlTitle p = false →
      keywordHit p = some kw → detectCaptcha p = ⟨true, "keyword: " ++ kw⟩) ∧
    (domMarkerHit p = none → cloudflareUrlTitle p = false → keywordHit p = none →
      urlHeuristic p = true → detectCaptcha p = ⟨true, "url-based"⟩) ∧
    (domMarkerHit p = none → cloudflareUrlTitle p = false → keywordHit p = none →
      urlHeuristic p = false → p.metaRefresh = true →
      detectCaptcha p = ⟨true, "meta-refresh"⟩) ∧
    (domMarkerHit p = none → cloudflareUrlTitle p = false → keywordHit p = none →
      urlHeuristic p = false → p.metaRefresh = false → minimalContent p = true →
      detectCaptcha p = ⟨true, "minimal-content"⟩) := by
  have hiff : (detectCaptcha p).hasCaptcha = false ↔
      domMarkerHit p = none ∧ cloudflareUrlTitle p = false ∧
      keywordHit p = none ∧ urlHeuristic p = false ∧
      p.metaRefresh = false ∧ minimalContent p = false := by
    rcases h1 : domMarkerHit p with _ | ⟨ty, sel⟩
    · by_cases h2 : cloudflareUrlTitle p = true
      · simp [detectCaptcha, h1, h2]
      · rcases h3 : keywordHit p with _ | kw
        · by_cases h4 : urlHeuristic p = true
          · simp [detectCaptcha, h1, h2, h3, h4]
          · by_cases h5 : p.metaRefresh = true
            · simp [detectCaptcha, h1, h2, h3, h4, h5]
            · by_cases h6 : minimalContent p = true
              · simp [detectCaptcha, h1, h2, h3, h4, h5, h6]
              · simp [detectCaptcha, h1, h2, h3, h4, h5, h6]
        · simp [detectCaptcha, h1, h2, h3]
    · simp [detectCaptcha, h1]
  refine ⟨hiff, ?_, ?_, ?_, ?_, ?_, ?_⟩
  · intro ty sel h1; simp [detectCaptcha, h1]
  · intro h1 h2; simp [detectCaptcha, h1, h2]
  · intro kw h1 h2 h3; simp [detectCaptcha, h1, h2, h3]
  · intro h1 h2 h3 h4; simp [detectCaptcha, h1, h2, h3, h4]
  · intro h1 h2 h3 h4 h5; simp [detectCaptcha, h1, h2, h3, h4, h5]
  · intro h1 h2 h3 h4 h5 h6; simp [detectCaptcha, h1, h2, h3, h4, h5, h6]

/-- Witness for C2: a page whose URL carries the `__cf_chl_` fragment and
matches no DOM marker is classified as a Cloudflare challenge. -/
theorem detectCaptcha_ordered_battery_witness :
    detectCaptcha cfChallengePage = ⟨true, "cloudflare-challenge"⟩ :=
  (detectCaptcha_ordered_battery cfChallengePage).2.2.1 (by decide) (by decide)

/-- C3: with the primary copy's 1 GiB `memoryThreshold`, `shouldRestart` is
true whenever the session age exceeds the 45-minute ceiling (regardless of
memory), true whenever the memory estimate exceeds the ceiling (regardless
of age), and false when both are under their ceilings.  The duplicated copy
of the class, whose `memoryThreshold` line the claim cites, multiplies the
1GB value by 5 while its own comment still says "1GB in bytes": there a
session holding 2 GiB does **not** restart. -/
theorem shouldRestart_age_memory_policy (s : BrowserSessionM) (now : Int) :
    (maxSessionDuration < now - s.startTime →
      shouldRestart memoryThreshold (some s) now = true) ∧
    (memoryThreshold < s.memoryUsage →
      shouldRestart memoryThreshold (some s) now = true) ∧
    (now - s.startTime ≤ maxSessionDuration → s.memoryUsage ≤ memoryThreshold →
      shouldRestart memoryThreshold (some s) now = false) ∧
    shouldRestart memoryThresholdDup
      (some { priorSession with memoryUsage := 2 * 1024 * 1024 * 1024 }) 0 =
      false := by
  refine ⟨?_, ?_, ?_, by decide⟩
  · intro h
    simp only [shouldRestart]
    split_ifs with h1 h2 <;>
      first | rfl | exact absurd h h1 | exact absurd h h2
  · intro h
    simp only [shouldRestart]
    split_ifs with h1 h2 <;>
      first | rfl | exact absurd h h1 | exact absurd h h2
  · intro ha hm
    simp only [shouldRestart]
    split_ifs with h1 h2 <;>
      first | rfl | exact absurd h1 (by omega) | exact absurd h2 (by omega)

/-- Witness for C3: a fresh session holding 2 GiB is restarted under the
primary 1 GiB ceiling. -/
theorem shouldRestart_age_memory_policy_witness :
    shouldRestart memoryThreshold
      (some { priorSession with memoryUsage := 2 * 1024 * 1024 * 1024 }) 0 =
      true :=
  (shouldRestart_age_memory_policy
    { priorSession with memoryUsage := 2 * 1024 * 1024 * 1024 } 0).2.1
    (by decide)

/-- C4: `restartBrowser` does persist cookies and storage before teardown
(third conjunct), but because `closeSession()` nulls `this.session` before
the old session is read, the relaunched session gets restart counter 1
(not the prior counter 1 plus one = 2) and `launchBrowser` receives
`undefined` for the proxy choice, which defaults to `true` (not the prior
session's `false`). -/
theorem restartBrowser_carry_divergence :
    (restartBrowser ⟨some priorSession, none⟩ 500 relaunchEnv).2.restartCount
      = 1 ∧
    (restartBrowser ⟨some priorSession, none⟩ 500
        relaunchEnv).2.sessionInfo.proxyUsed = true ∧
    (restartBrowser ⟨some priorSession, none⟩ 500 relaunchEnv).1.store =
      some ⟨["cookieA"], [("k", "v")], [("s", "w")], "agent-1", 500⟩ := by
  decide

/-- C5: persisting the session state and loading it while the capture
timestamp is within the 24-hour freshness window reproduces exactly the
cookie set and storage snapshot that were saved; loading older state
returns no state at all. -/
theorem saveSessionData_loadSessionData_roundTrip (st : MgrState)
    (sess : BrowserSessionM) (now later : Int)
    (hsess : st.session = some sess) :
    (later - now ≤ sessionDataMaxAge →
      loadSessionData (saveSessionData st now) later =
        some ⟨sess.page.cookies, capturedLocalStorage sess.page,
              capturedSessionStorage sess.page,
              sess.sessionInfo.userAgent, now⟩) ∧
    (sessionDataMaxAge < later - now →
      loadSessionData (saveSessionData st now) later = none) := by
  constructor
  · intro h
    simp only [saveSessionData, hsess, loadSessionData]
    rw [if_neg (by omega)]
  · intro h
    simp only [saveSessionData, hsess, loadSessionData]
    rw [if_pos (by omega)]

/-- Witness for C5: a save at time 0 is reproduced by a load at time 1000. -/
theorem saveSessionData_loadSessionData_roundTrip_witness :
    loadSessionData (saveSessionData ⟨some priorSession, none⟩ 0) 1000 =
      some ⟨priorSession.page.cookies, capturedLocalStorage priorSession.page,
            capturedSessionStorage priorSession.page,
            priorSession.sessionInfo.userAgent, 0⟩ :=
  (saveSessionData_loadSessionData_roundTrip ⟨some priorSession, none⟩
    priorSession 0 1000 rfl).1 (by decide)

/-- Counterexample for C6: the availability check returns the same plain
`false` for a page with zero slot-container elements as for a page whose
only slot-container is empty — there is no distinct structural-anomaly
outcome in its result. -/
theorem checkAppointmentAvailability_zero_slots_counterexample :
    checkAppointmentAvailability [] = checkAppointmentAvailability [⟨"", 0⟩] ∧
    checkAppointmentAvailability [] = false := by decide

/-- C6 (amended): the availability check reports available exactly when some
slot-container has non-empty content or children; both a page with only
empty slot-containers and a page with zero slot-containers report `false`
(the zero-slot case is distinguished only by a console warning, and in the
earlier draft by a blocking operator prompt, never by the returned value). -/
theorem checkAppointmentAvailability_spec (slots : List SlotElem) :
    (checkAppointmentAvailability slots = true ↔
      ∃ s ∈ slots, slotPopulated s = true) ∧
    checkAppointmentAvailability [⟨"", 0⟩] = false ∧
    checkAppointmentAvailability [] = false := by
  have heq : checkAppointmentAvailability slots = slots.any slotPopulated := by
    unfold checkAppointmentAvailability
    rcases h : slots.any slotPopulated <;> simp [h]
  refine ⟨?_, by decide, by decide⟩
  rw [heq, List.any_eq_true]

/-- Witness for C6: one populated slot-container makes the check report
available. -/
theorem checkAppointmentAvailability_spec_witness :
    checkAppointmentAvailability [⟨"<div>x</div>", 1⟩] = true :=
  (checkAppointmentAvailability_spec [⟨"<div>x</div>", 1⟩]).1.mpr
    ⟨⟨"<div>x</div>", 1⟩, by decide, by decide⟩

/-- C7: a failing page-validity probe makes the monitoring cycle propagate
the distinguished "Browser session restarted" error; any cycle error whose
message matches the session-invalidating patterns (that message, protocol
errors, target closed, destroyed execution context) is propagated to the
caller; every other cycle error is caught and retried after a delay. -/
theorem monitorAppointments_error_policy (env : CycleEnv) :
    (env.pageValid = false →
      monitorCycle env = .propagate sessionRestartedMsg) ∧
    (∀ msg, env.pageValid = true → env.cycleError = some msg →
      isSessionInvalidating msg = true → monitorCycle env = .propagate msg) ∧
    (∀ msg, env.pageValid = true → env.cycleError = some msg →
      isSessionInvalidating msg = false → monitorCycle env = .nextCycle) ∧
    isSessionInvalidating sessionRestartedMsg = true := by
  have hz : isSessionInvalidating sessionRestartedMsg = true := by decide
  refine ⟨?_, ?_, ?_, hz⟩
  · intro h
    simp [monitorCycle, h, hz]
  · intro msg h1 h2 h3
    simp [monitorCycle, h1, h2, h3]
  · intro msg h1 h2 h3
    simp [monitorCycle, h1, h2, h3]

/-- Witness for C7: a protocol error is propagated, a timeout is retried,
and a failed probe propagates the distinguished message. -/
theorem monitorAppointments_error_policy_witness :
    monitorCycle ⟨false, none, false⟩ = .propagate sessionRestartedMsg ∧
    monitorCycle ⟨true, some "Protocol error: boom", false⟩ =
      .propagate "Protocol error: boom" ∧
    monitorCycle ⟨true, some "navigation timeout", false⟩ = .nextCycle := by
  refine ⟨(monitorAppointments_error_policy ⟨false, none, false⟩).1 rfl,
    (monitorAppointments_error_policy ⟨true, some "Protocol error: boom",
      false⟩).2.1 "Protocol error: boom" rfl rfl (by decide),
    (monitorAppointments_error_policy ⟨true, some "navigation timeout",
      false⟩).2.2.1 "navigation timeout" rfl rfl (by decide)⟩

/-- C8: with a persisted valid timestamp, a run is allowed exactly when at
least 15 minutes have elapsed; a rejected run reports the next allowed time
and the ceiling of the remaining minutes (so waiting the reported number of
minutes always reaches the next allowed time); and once the gate passes the
clean-run entry point unconditionally overwrites the stored timestamp with
the current time. -/
theorem checkRateLimit_cooldown_gate (t now : Int) :
    ((checkRateLimit (.valid t) now).canRun = true ↔
      rateLimitMinutes * 60 * 1000 ≤ now - t) ∧
    (now - t < rateLimitMinutes * 60 * 1000 →
      (checkRateLimit (.valid t) now).canRun = false ∧
      (checkRateLimit (.valid t) now).nextAllowedTime =
        some (t + rateLimitMinutes * 60 * 1000) ∧
      (checkRateLimit (.valid t) now).minutesRemaining =
        some ⌈((rateLimitMinutes * 60 * 1000 - (now - t) : Int) : ℚ) /
          (60 * 1000)⌉ ∧
      ∀ r : Int,
        (checkRateLimit (.valid t) now).minutesRemaining = some r →
        t + rateLimitMinutes * 60 * 1000 ≤ now + r * (60 * 1000)) ∧
    ((checkRateLimit (.valid t) now).canRun = true →
      cleanRunStart (.valid t) now = some (updateRateLimit now)) := by
  have hpos : (0 : ℚ) < 1000 * 60 := by norm_num
  have hcond : ((rateLimitMinutes : ℚ) ≤ ((now - t : Int) : ℚ) / (1000 * 60)) ↔
      (rateLimitMinutes * 60 * 1000 ≤ now - t) := by
    rw [le_div_iff hpos]
    constructor
    · intro hh
      have h2 : ((rateLimitMinutes * 60 * 1000 : Int) : ℚ) ≤
          ((now - t : Int) : ℚ) := by push_cast; push_cast at hh; linarith
      exact_mod_cast h2
    · intro hh
      have h2 : ((rateLimitMinutes * 60 * 1000 : Int) : ℚ) ≤
          ((now - t : Int) : ℚ) := by exact_mod_cast hh
      push_cast at h2 ⊢; linarith
  refine ⟨?_, ?_, ?_⟩
  · simp only [checkRateLimit]
    split_ifs with h
    · simpa using hcond.mp h
    · simp only [Bool.false_eq_true, false_iff]
      exact fun hc => h (hcond.mpr hc)
  · intro hlt
    have hneg : ¬((rateLimitMinutes : ℚ) ≤ ((now - t : Int) : ℚ) / (1000 * 60)) :=
      fun hh => absurd (hcond.mp hh) (by omega)
    simp only [checkRateLimit]
    rw [if_neg hneg]
    have hform : (rateLimitMinutes : ℚ) - ((now - t : Int) : ℚ) / (1000 * 60) =
        ((rateLimitMinutes * 60 * 1000 - (now - t) : Int) : ℚ) / (60 * 1000) := by
      push_cast
      field_simp
      ring
    refine ⟨rfl, rfl, ?_, ?_⟩
    · rw [hform]
    · intro r hr
      rw [hform] at hr
      have hr2 : r = ⌈((rateLimitMinutes * 60 * 1000 - (now - t) : Int) : ℚ) /
          (60 * 1000)⌉ := (Option.some.injEq _ _).mp hr |>.symm
      have hle : ((rateLimitMinutes * 60 * 1000 - (now - t) : Int) : ℚ) /
          (60 * 1000) ≤ (r : ℚ) := by
        rw [hr2]; exact Int.le_ceil _
      have hmul : ((rateLimitMinutes * 60 * 1000 - (now - t) : Int) : ℚ) ≤
          (r : ℚ) * (60 * 1000) := by
        rw [div_le_iff (by norm_num : (0 : ℚ) < 60 * 1000)] at hle
        exact hle
      have hZ : rateLimitMinutes * 60 * 1000 - (now - t) ≤ r * (60 * 1000) := by
        exact_mod_cast hmul
      omega
  · intro hc
    simp [cleanRunStart, hc]

/-- Witness for C8: at time 0 with a last run at time 0, the gate rejects. -/
theorem checkRateLimit_cooldown_gate_witness :
    (checkRateLimit (.valid 0) 0).canRun = false :=
  ((checkRateLimit_cooldown_gate 0 0).2.1 (by decide)).1

/-- `checkProxyDetection` copies the lookup's proxy boolean into the proxy
risk flag; nothing later in the function changes it. -/
theorem checkProxyDetection_isProxy (resp : ProxyApiResp) (r : IPHealthResult)
    (h1 : resp.threw = false) (h2 : resp.ok = true) :
    (checkProxyDetection resp r).risks.isProxy = resp.proxy := by
  obtain ⟨thr, ok, prox, host⟩ := resp
  subst h1
  subst h2
  simp only [checkProxyDetection]
  norm_num
  cases prox <;> cases host <;>
    first
      | rfl
      | (split <;> rfl)
      | (norm_num <;> split <;> rfl)

/-- `checkIPReputation` never changes the proxy risk flag. -/
theorem checkIPReputation_isProxy (resp : ReputationApiResp)
    (r : IPHealthResult) :
    (checkIPReputation resp r).risks.isProxy = r.risks.isProxy := by
  simp only [checkIPReputation]
  split_ifs <;> try rfl
  all_goals (split <;> rfl)

/-- `analyzeIPHealth` recommends UNSAFE whenever the proxy flag is set. -/
theorem analyzeIPHealth_unsafe_of_isProxy (r : IPHealthResult)
    (h : r.risks.isProxy = true) :
    (analyzeIPHealth r).recommendation = "UNSAFE" := by
  simp only [analyzeIPHealth]
  split_ifs <;> simp_all

/-- Counterexample for C9: an ISP name matching the hosting pattern, with
every other signal clean, sets the VPN/hosting flag and therefore lands in
UNSAFE — not CAUTION as the claim states. -/
theorem ipHealth_hosting_isp_counterexample :
    (checkIPHealth "203.0.113.5" hostingLoc cleanProxyResp
        cleanReputationResp).recommendation = "UNSAFE" ∧
    (checkIPHealth "203.0.113.5" hostingLoc cleanProxyResp
        cleanReputationResp).recommendation ≠ "CAUTION" := by
  decide

/-- C9 (amended): the recommendation is UNSAFE whenever the proxy risk flag
is reported true; an all-clean input yields SAFE; a hosting-pattern ISP name
with no other risk markers yields UNSAFE (it sets the VPN/hosting flag);
CAUTION arises for moderate signals that raise the score to 30–69 without
setting the proxy/VPN flags, e.g. an unknown country plus the geolocation
mismatch. -/
theorem ipHealth_recommendation_policy (ip : String) (loc : IPLocation)
    (presp : ProxyApiResp) (rresp : ReputationApiResp) :
    (presp.threw = false → presp.ok = true → presp.proxy = true →
      (checkIPHealth ip loc presp rresp).recommendation = "UNSAFE") ∧
    (checkIPHealth "203.0.113.5" cleanLoc cleanProxyResp
        cleanReputationResp).recommendation = "SAFE" ∧
    (checkIPHealth "203.0.113.5" hostingLoc cleanProxyResp
        cleanReputationResp).recommendation = "UNSAFE" ∧
    (checkIPHealth "203.0.113.5" cautionLoc cleanProxyResp
        cleanReputationResp).recommendation = "CAUTION" := by
  refine ⟨?_, by decide, by decide, by decide⟩
  intro h1 h2 h3
  unfold checkIPHealth
  apply analyzeIPHealth_unsafe_of_isProxy
  rw [checkIPReputation_isProxy, checkProxyDetection_isProxy _ _ h1 h2, h3]

/-- Witness for C9: a proxy-flagged lookup makes the composite
recommendation UNSAFE. -/
theorem ipHealth_recommendation_policy_witness :
    (checkIPHealth "198.51.100.7" cleanLoc proxyFlaggedResp
        cleanReputationResp).recommendation = "UNSAFE" :=
  (ipHealth_recommendation_policy "198.51.100.7" cleanLoc proxyFlaggedResp
    cleanReputationResp).1 rfl rfl rfl

end VisaScraper
